import Mathlib

/-!
Verification of the shipment/invoice reconciliation matcher of the Drives
repository, embedded from `src/Drive_Sheets.py` (the functions
`_normalizar_texto_para_chave`, `processar_dados_*` key construction and
`cruzar_e_atualizar_transportes`; `src/Capacidade.py` carries a
line-for-line copy of the same matcher logic).

Modelling choices:
* a Python string is a list of Unicode code points (`Str := List Nat`);
* a pandas timestamp cell is `Option Int` (`none` models `NaN`/`NaT`);
* a dataframe row is a structure; the dataframe index is the positional
  index (`original_index` in the matcher);
* the dict built by `drop_duplicates(keep=last).set_index(...).to_dict`
  is the last-wins lookup `lookupLast`;
* the Python set `indices_descargas_usados` is a `Finset Nat`.
-/

namespace Drives

/-- Python strings modelled as lists of Unicode code points. -/
abbrev Str := List Nat

/-- Code points of a Lean string literal, used to write concrete inputs. -/
def codes (s : String) : Str := s.data.map Char.toNat

/-- Python `str.lower()` on one code point, for the ASCII and Latin-1
uppercase ranges (the only ranges occurring in this repository's data). -/
def pyLowerCode (n : Nat) : Nat :=
  if 65 ≤ n ∧ n ≤ 90 then n + 32
  else if 192 ≤ n ∧ n ≤ 222 ∧ n ≠ 215 then n + 32
  else n

/-- Python `str.upper()` on one ASCII code point. -/
def asciiUpperCode (n : Nat) : Nat :=
  if 97 ≤ n ∧ n ≤ 122 then n - 32 else n

/-- The character class `[a-z0-9]` of the regex in
`_normalizar_texto_para_chave`. -/
def isKeyCode (n : Nat) : Bool :=
  (97 ≤ n && n ≤ 122) || (48 ≤ n && n ≤ 57)

/-- Whitespace removed by Python `str.strip()` (ASCII whitespace). -/
def pyIsSpaceCode (n : Nat) : Bool :=
  n = 32 || n = 9 || n = 10 || n = 13 || n = 11 || n = 12

/-- Python `str.strip()`: drop leading and trailing whitespace. -/
def stripCodes (l : Str) : Str :=
  ((l.dropWhile pyIsSpaceCode).reverse.dropWhile pyIsSpaceCode).reverse

/-- `_normalizar_texto_para_chave` (scalar branch), Drive_Sheets.py lines
289-293: `re.sub('[^a-z0-9]', '', str(series).strip().lower())`. -/
def normalizarTextoParaChave (l : Str) : Str :=
  ((stripCodes l).map pyLowerCode).filter isKeyCode

/-- Python `str(x)` on an optional string: `str(None)` is `"None"`. -/
def pyStrOfOption (v : Option Str) : Str :=
  match v with
  | none => codes "None"
  | some s => s

/-- The key normalizer applied to a possibly-null scalar, as Python
evaluates `_normalizar_texto_para_chave(None)`. -/
def normalizarChaveEscalar (v : Option Str) : Str :=
  normalizarTextoParaChave (pyStrOfOption v)

/-- Python `str.lower()` on a whole string (code-point-wise). -/
def pyLower (s : Str) : Str := s.map pyLowerCode

/-- Boolean prefix test on code-point lists. -/
def isPref : Str → Str → Bool
  | [], _ => true
  | _ :: _, [] => false
  | a :: as, b :: bs => (a == b) && isPref as bs

/-- Python substring containment `needle in hay`. -/
def temSub (needle : Str) : Str → Bool
  | [] => needle.isEmpty
  | c :: rest => isPref needle (c :: rest) || temSub needle rest

/-- One row of the processed `df_descargas` (an InvoiceRecord) as the
matcher reads it: the two precomputed join keys, the issue date `data`
and the optional unload date `data_de_descarga`. -/
structure Descarga where
  chave_primaria : Str
  chave_placa_fonte_produto : Str
  data : Option Int
  data_de_descarga : Option Int
deriving DecidableEq

/-- A descarga row together with `original_index`, the column the matcher
adds from the dataframe index. -/
structure DescargaIdx extends Descarga where
  original_index : Nat
deriving DecidableEq

/-- One row of the processed `df_transportes` (a ShipmentRecord) as the
matcher reads and updates it. -/
structure Transporte where
  status : Str
  chave_primaria : Str
  cavalo : Str
  produto : Str
  recebedor : Str
  data_de_carregamento : Option Int
  data_chegada : Option Int
  data_descarga : Option Int
  fonte_atualizacao : Str
deriving DecidableEq

/-- `descargas_com_indice['original_index'] = descargas_com_indice.index`. -/
def comIndice (ds : List Descarga) : List DescargaIdx :=
  ds.enum.map (fun p => { toDescarga := p.2, original_index := p.1 })

/-- The lookup realized by `drop_duplicates(subset=[key], keep='last')`
followed by `set_index(key).to_dict('index')`: for each key the last row
carrying it wins. -/
def lookupLast (key : DescargaIdx → Str) (l : List DescargaIdx) (k : Str) :
    Option DescargaIdx :=
  l.foldl (fun acc d => if key d = k then some d else acc) none

/-- `novo_status = 'aguardando descarga' if pd.isna(match.get('data_de_descarga')) else 'descarregado'`. -/
def novoStatus (m : DescargaIdx) : Str :=
  if m.data_de_descarga.isNone then codes "aguardando descarga"
  else codes "descarregado"

/-- The shared update block of both tiers (Drive_Sheets.py lines 405-419
and 434-447): run when a lookup hit `m` was found for transport `t`,
with `fonte` the tier marker written to `fonte_atualizacao`. -/
def aplicarAtualizacao (fonte : Str) (m : DescargaIdx) (t : Transporte) :
    Transporte :=
  if novoStatus m ≠ pyLower t.status then
    let t1 : Transporte :=
      { t with data_chegada := m.data, fonte_atualizacao := fonte }
    if temSub (codes "trânsito") (pyLower t.status) &&
        (novoStatus m == codes "aguardando descarga") then
      { t1 with status := codes "AGUARDANDO DESCARGA" }
    else if temSub (codes "trânsito") (pyLower t.status) &&
        (novoStatus m == codes "descarregado") then
      { t1 with status := codes "DESCARREGADO",
                data_descarga := m.data_de_descarga }
    else if temSub (codes "aguardando") (pyLower t.status) &&
        (novoStatus m == codes "descarregado") then
      { t1 with status := codes "DESCARREGADO",
                data_descarga := m.data_de_descarga }
    else t1
  else t

/-- Tier-1 treatment of a single transport row: look its
`chave_primaria` up in the primary map; on a hit, record the descarga's
index as used (unconditionally) and apply the update block. -/
def etapa1Row (mapa : Str → Option DescargaIdx) (t : Transporte)
    (usados : Finset Nat) : Transporte × Finset Nat :=
  match mapa t.chave_primaria with
  | none => (t, usados)
  | some m =>
    (aplicarAtualizacao (codes "Etapa 1 - Chave Primária") m t,
     insert m.original_index usados)

/-- Tier-1 loop over all transport rows, threading the used-index set. -/
def etapa1All (mapa : Str → Option DescargaIdx) :
    List Transporte → Finset Nat → List Transporte × Finset Nat
  | [], u => ([], u)
  | t :: ts, u =>
    ((etapa1Row mapa t u).1 ::
       (etapa1All mapa ts (etapa1Row mapa t u).2).1,
     (etapa1All mapa ts (etapa1Row mapa t u).2).2)

/-- The secondary key the matcher recomputes per transport row:
`normalizar(cavalo) + '_' + normalizar(produto) + '_' + normalizar(recebedor)`. -/
def chaveBuscaPlaca (t : Transporte) : Str :=
  normalizarTextoParaChave t.cavalo ++ codes "_" ++
    normalizarTextoParaChave t.produto ++ codes "_" ++
    normalizarTextoParaChave t.recebedor

/-- The tier-2 date guard
`pd.notna(transporte['data_de_carregamento']) and pd.to_datetime(match['data']) >= transporte['data_de_carregamento']`;
comparisons against `NaT` are false. -/
def dataOk (ddata : Option Int) (carregamento : Option Int) : Bool :=
  match carregamento, ddata with
  | some c, some d => c ≤ d
  | _, _ => false

/-- Tier-2 treatment of a single row: only rows still marked
`'Não Atualizado'` take part; a lookup hit is accepted only when the date
guard passes, and only then is the index recorded and the update applied. -/
def etapa2Row (mapa : Str → Option DescargaIdx) (t : Transporte)
    (usados : Finset Nat) : Transporte × Finset Nat :=
  if t.fonte_atualizacao = codes "Não Atualizado" then
    match mapa (chaveBuscaPlaca t) with
    | none => (t, usados)
    | some m =>
      if dataOk m.data t.data_de_carregamento then
        (aplicarAtualizacao (codes "Etapa 2 - Placa") m t,
         insert m.original_index usados)
      else (t, usados)
  else (t, usados)

/-- Tier-2 loop over all transport rows. -/
def etapa2All (mapa : Str → Option DescargaIdx) :
    List Transporte → Finset Nat → List Transporte × Finset Nat
  | [], u => ([], u)
  | t :: ts, u =>
    ((etapa2Row mapa t u).1 ::
       (etapa2All mapa ts (etapa2Row mapa t u).2).1,
     (etapa2All mapa ts (etapa2Row mapa t u).2).2)

/-- `cruzar_e_atualizar_transportes` (Drive_Sheets.py lines 377-449):
mark every transport row `'Não Atualizado'`; if either input is empty,
return immediately; otherwise run tier 1 (primary key) and then tier 2
(plate key) over the rows left unmarked, returning the updated rows and
the set of used descarga indices. -/
def cruzarEAtualizarTransportes (ts : List Transporte) (ds : List Descarga) :
    List Transporte × Finset Nat :=
  if ts.isEmpty || ds.isEmpty then
    (ts.map (fun t => { t with fonte_atualizacao := codes "Não Atualizado" }), ∅)
  else
    etapa2All (lookupLast (fun m => m.chave_placa_fonte_produto) (comIndice ds))
      (etapa1All (lookupLast (fun m => m.chave_primaria) (comIndice ds))
        (ts.map (fun t => { t with fonte_atualizacao := codes "Não Atualizado" }))
        ∅).1
      (etapa1All (lookupLast (fun m => m.chave_primaria) (comIndice ds))
        (ts.map (fun t => { t with fonte_atualizacao := codes "Não Atualizado" }))
        ∅).2


/-- Core of the normalizer with the (redundant) strip step removed; used
only to organize proofs about `normalizarTextoParaChave`. -/
def nucleoNorm (l : Str) : Str := (l.map pyLowerCode).filter isKeyCode

theorem isKeyCode_pyLower_self (n : Nat) (h : isKeyCode n = true) :
    pyLowerCode n = n := by
  simp only [isKeyCode, Bool.or_eq_true, Bool.and_eq_true, decide_eq_true_eq] at h
  unfold pyLowerCode
  rw [if_neg (by omega), if_neg (by omega)]

theorem space_killed (n : Nat) (h : pyIsSpaceCode n = true) :
    isKeyCode (pyLowerCode n) = false := by
  simp only [pyIsSpaceCode, Bool.or_eq_true, decide_eq_true_eq] at h
  unfold pyLowerCode
  rw [if_neg (by omega), if_neg (by omega)]
  simp only [isKeyCode, Bool.or_eq_false_iff, Bool.and_eq_false_iff,
    decide_eq_false_iff_not]
  omega

theorem nucleoNorm_append (a b : Str) :
    nucleoNorm (a ++ b) = nucleoNorm a ++ nucleoNorm b := by
  simp [nucleoNorm, List.filter_append]

theorem nucleoNorm_reverse (l : Str) :
    nucleoNorm l.reverse = (nucleoNorm l).reverse := by
  simp [nucleoNorm, List.map_reverse, List.filter_reverse]

theorem nucleoNorm_dropWhile (l : Str) :
    nucleoNorm (l.dropWhile pyIsSpaceCode) = nucleoNorm l := by
  conv_rhs => rw [← List.takeWhile_append_dropWhile (p := pyIsSpaceCode) (l := l)]
  rw [nucleoNorm_append]
  have h : nucleoNorm (l.takeWhile pyIsSpaceCode) = [] := by
    rw [nucleoNorm, List.filter_eq_nil_iff]
    intro a ha
    rw [List.mem_map] at ha
    obtain ⟨n, hn, rfl⟩ := ha
    simp [space_killed n (List.mem_takeWhile_imp hn)]
  rw [h, List.nil_append]

theorem norm_eq_nucleo (l : Str) :
    normalizarTextoParaChave l = nucleoNorm l := by
  show nucleoNorm (stripCodes l) = nucleoNorm l
  unfold stripCodes
  rw [nucleoNorm_reverse, nucleoNorm_dropWhile, nucleoNorm_reverse,
    List.reverse_reverse, nucleoNorm_dropWhile]

theorem nucleoNorm_all_key (l : Str) :
    (nucleoNorm l).all isKeyCode = true := by
  rw [List.all_eq_true]
  intro a ha
  exact List.of_mem_filter ha

theorem nucleoNorm_fix (l : Str) (h : l.all isKeyCode = true) :
    nucleoNorm l = l := by
  rw [List.all_eq_true] at h
  rw [nucleoNorm]
  rw [List.map_congr_left (fun a ha => isKeyCode_pyLower_self a (h a ha))]
  simp only [List.map_id']
  rw [List.filter_eq_self]
  exact h

theorem pyLower_asciiUpper (n : Nat) :
    pyLowerCode (asciiUpperCode n) = pyLowerCode n := by
  unfold asciiUpperCode pyLowerCode
  by_cases h : 97 ≤ n ∧ n ≤ 122
  · rw [if_pos h, if_pos (by omega), if_neg (by omega), if_neg (by omega)]
    omega
  · rw [if_neg h]

theorem etapa2Row_marcado (mapa : Str → Option DescargaIdx) (t : Transporte)
    (u : Finset Nat) (h : t.fonte_atualizacao ≠ codes "Não Atualizado") :
    etapa2Row mapa t u = (t, u) := by
  unfold etapa2Row
  rw [if_neg h]

theorem etapa2All_length (mapa : Str → Option DescargaIdx) (ts : List Transporte)
    (u : Finset Nat) : (etapa2All mapa ts u).1.length = ts.length := by
  induction ts generalizing u with
  | nil => rfl
  | cons t ts ih => simp [etapa2All, ih]

theorem etapa1Row_usados_mono (mapa : Str → Option DescargaIdx) (t : Transporte)
    (u : Finset Nat) : u ⊆ (etapa1Row mapa t u).2 := by
  unfold etapa1Row
  cases mapa t.chave_primaria with
  | none => exact fun a ha => ha
  | some m => exact Finset.subset_insert _ u

theorem etapa1All_usados_mono (mapa : Str → Option DescargaIdx)
    (ts : List Transporte) (u : Finset Nat) : u ⊆ (etapa1All mapa ts u).2 := by
  induction ts generalizing u with
  | nil => exact fun a ha => ha
  | cons t ts ih =>
    exact Finset.Subset.trans (etapa1Row_usados_mono mapa t u) (ih _)

theorem etapa2Row_usados_mono (mapa : Str → Option DescargaIdx) (t : Transporte)
    (u : Finset Nat) : u ⊆ (etapa2Row mapa t u).2 := by
  unfold etapa2Row
  split
  · cases mapa (chaveBuscaPlaca t) with
    | none => exact fun a ha => ha
    | some m =>
      simp only
      split
      · exact Finset.subset_insert _ u
      · exact fun a ha => ha
  · exact fun a ha => ha

theorem etapa2All_usados_mono (mapa : Str → Option DescargaIdx)
    (ts : List Transporte) (u : Finset Nat) : u ⊆ (etapa2All mapa ts u).2 := by
  induction ts generalizing u with
  | nil => exact fun a ha => ha
  | cons t ts ih =>
    exact Finset.Subset.trans (etapa2Row_usados_mono mapa t u) (ih _)

theorem etapa1All_consome (mapa : Str → Option DescargaIdx)
    (ts : List Transporte) (u : Finset Nat) (t : Transporte) (m : DescargaIdx)
    (ht : t ∈ ts) (hm : mapa t.chave_primaria = some m) :
    m.original_index ∈ (etapa1All mapa ts u).2 := by
  induction ts generalizing u with
  | nil => exact absurd ht (List.not_mem_nil t)
  | cons a as ih =>
    rcases List.mem_cons.mp ht with rfl | hmem
    · have h1 : m.original_index ∈ (etapa1Row mapa t u).2 := by
        unfold etapa1Row
        rw [hm]
        exact Finset.mem_insert_self _ _
      exact etapa1All_usados_mono mapa as _ h1
    · exact ih _ hmem

theorem lookupLast_nil (key : DescargaIdx → Str) (k : Str) :
    lookupLast key [] k = none := rfl

theorem lookupLast_sem_chave (key : DescargaIdx → Str) (l : List DescargaIdx)
    (k : Str) (acc : Option DescargaIdx) (h : ∀ e ∈ l, key e ≠ k) :
    l.foldl (fun acc d => if key d = k then some d else acc) acc = acc := by
  induction l generalizing acc with
  | nil => rfl
  | cons d l ih =>
    simp only [List.foldl_cons]
    rw [if_neg (h d (List.mem_cons_self d l))]
    exact ih acc fun e he => h e (List.mem_cons_of_mem d he)

theorem aplicar_mesmo_status (fonte : Str) (m : DescargaIdx) (t : Transporte)
    (h : novoStatus m = pyLower t.status) :
    aplicarAtualizacao fonte m t = t := by
  unfold aplicarAtualizacao
  rw [if_neg (not_not_intro h)]

/-- Claim C1, counterexample: the claim says no two distinct transport rows
are ever updated from the same descarga row (`original_index`) in one run.
Here two distinct in-transit transport rows share the primary key `"k"`,
the single descarga row (index 0) matches both in tier 1, both rows get
the tier-1 update marker, and the used-index set is exactly `{0}`: the
same descarga row updated two distinct transport rows. -/
theorem c1_contraexemplo :
    ((cruzarEAtualizarTransportes
        [⟨codes "Em Trânsito", codes "k", codes "AAA1111", codes "diesel",
          codes "acme", some 1, none, none, []⟩,
         ⟨codes "Em Trânsito", codes "k", codes "BBB2222", codes "diesel",
          codes "acme", some 2, none, none, []⟩]
        [⟨codes "k", codes "pk", some 5, none⟩]).1.map
          (fun r => r.fonte_atualizacao) =
      [codes "Etapa 1 - Chave Primária", codes "Etapa 1 - Chave Primária"])
    ∧ (cruzarEAtualizarTransportes
        [⟨codes "Em Trânsito", codes "k", codes "AAA1111", codes "diesel",
          codes "acme", some 1, none, none, []⟩,
         ⟨codes "Em Trânsito", codes "k", codes "BBB2222", codes "diesel",
          codes "acme", some 2, none, none, []⟩]
        [⟨codes "k", codes "pk", some 5, none⟩]).2 = {0} := by decide

/-- Claim C1, amended: the consumed-index set is never consulted during
matching, so a consumed descarga row can match further transport rows in
the same run (see the counterexample). What does hold per transport row
is that each row is updated by at most one tier: any row whose update
marker is no longer `'Não Atualizado'` after tier 1 is returned unchanged
by the tier-2 pass. -/
theorem c1_emendado (mapa : Str → Option DescargaIdx) (ts : List Transporte)
    (u : Finset Nat) (i : Nat) (hi : i < ts.length)
    (hi2 : i < (etapa2All mapa ts u).1.length)
    (h : (ts.get ⟨i, hi⟩).fonte_atualizacao ≠ codes "Não Atualizado") :
    (etapa2All mapa ts u).1.get ⟨i, hi2⟩ = ts.get ⟨i, hi⟩ := by
  induction ts generalizing u i with
  | nil => exact absurd hi (by simp)
  | cons t ts ih =>
    cases i with
    | zero => exact congrArg Prod.fst (etapa2Row_marcado mapa t u h)
    | succ n =>
      have hn : n < ts.length := by simpa using hi
      have hn2 : n < (etapa2All mapa ts (etapa2Row mapa t u).2).1.length := by
        rw [etapa2All_length]; exact hn
      exact ih _ n hn hn2 h

/-- Witness for `c1_emendado` at a concrete tier-1-updated row. -/
theorem c1_emendado_witness :
    (etapa2All (fun _ => none)
        [⟨codes "DESCARREGADO", codes "k", codes "a", codes "b", codes "c",
          some 1, none, none, codes "Etapa 1 - Chave Primária"⟩] ∅).1.get
        ⟨0, by decide⟩ =
      ⟨codes "DESCARREGADO", codes "k", codes "a", codes "b", codes "c",
        some 1, none, none, codes "Etapa 1 - Chave Primária"⟩ :=
  c1_emendado _ _ _ 0 (by decide) (by decide) (by decide)

/-- Claim C2, counterexample: the claim says the key normalizer returns an
uppercase string and maps null and empty inputs to the empty string. The
code lowercases (`"A"` normalizes to `"a"`, not an uppercase string), and
a null scalar is stringified by Python to `"None"`, which normalizes to
`"none"`, not the empty string. -/
theorem c2_contraexemplo :
    normalizarTextoParaChave (codes "A") = codes "a"
    ∧ codes "a" ≠ codes "A"
    ∧ normalizarChaveEscalar none = codes "none"
    ∧ codes "none" ≠ codes "" := by decide

/-- Claim C2, amended: for every input the key normalizer returns a
LOWERCASE string containing only the characters `a-z0-9` (everything
else, accented letters included, is removed); the empty string yields the
empty string; a null input is stringified first and yields `"none"`, not
the empty string. The function is a pure total Lean function, hence
deterministic. -/
theorem c2_emendado :
    (∀ l : Str, (normalizarTextoParaChave l).all isKeyCode = true)
    ∧ normalizarTextoParaChave (codes "") = codes ""
    ∧ normalizarChaveEscalar none = codes "none" := by
  refine ⟨fun l => ?_, by decide, by decide⟩
  rw [norm_eq_nucleo]
  exact nucleoNorm_all_key l

/-- Claim C3, counterexample: the claim says that for every matched
shipment the status becomes AGUARDANDO DESCARGA or DESCARREGADO according
to the invoice's unload date, and in particular that this holds for the
spec's example with status Scheduled (`AGENDADO`). On the code, a matched
row whose status is `AGENDADO` matches none of the update branches
(they require the lowered status to contain `trânsito` or `aguardando`),
so its status stays `AGENDADO` instead of becoming AGUARDANDO DESCARGA. -/
theorem c3_contraexemplo :
    ((cruzarEAtualizarTransportes
        [⟨codes "AGENDADO", codes "k", codes "a", codes "b", codes "c",
          some 1, none, none, []⟩]
        [⟨codes "k", codes "pk", some 5, none⟩]).1.map Transporte.status) =
      [codes "AGENDADO"]
    ∧ codes "AGENDADO" ≠ codes "AGUARDANDO DESCARGA" := by decide

/-- Claim C3, amended: the transition is a function of the matched
invoice's unload date only for matched shipments whose (lowered) current
status contains `trânsito` — exactly the in-transit statuses the upstream
filter admits. For those rows: absent unload date gives status
AGUARDANDO DESCARGA with the arrival date set from the invoice issue
date; present unload date gives status DESCARREGADO with the unload date
copied (and the arrival date also set). Rows in other statuses, such as
the spec's Scheduled example, are not transitioned by this block. -/
theorem c3_emendado (fonte : Str) (m : DescargaIdx) (t : Transporte)
    (h : temSub (codes "trânsito") (pyLower t.status) = true) :
    aplicarAtualizacao fonte m t =
      if m.data_de_descarga.isNone then
        { t with status := codes "AGUARDANDO DESCARGA",
                 data_chegada := m.data, fonte_atualizacao := fonte }
      else
        { t with status := codes "DESCARREGADO",
                 data_descarga := m.data_de_descarga,
                 data_chegada := m.data, fonte_atualizacao := fonte } := by
  by_cases hd : m.data_de_descarga.isNone
  · have hns : novoStatus m = codes "aguardando descarga" := by
      simp [novoStatus, hd]
    have hne : novoStatus m ≠ pyLower t.status := by
      rw [hns]
      intro he
      rw [← he] at h
      exact absurd h (by decide)
    rw [if_pos hd]
    unfold aplicarAtualizacao
    rw [if_pos hne, hns]
    simp [h]
  · have hns : novoStatus m = codes "descarregado" := by
      simp [novoStatus, hd]
    have hne : novoStatus m ≠ pyLower t.status := by
      rw [hns]
      intro he
      rw [← he] at h
      exact absurd h (by decide)
    rw [if_neg hd]
    unfold aplicarAtualizacao
    rw [if_pos hne, hns]
    simp [h]
    intro he
    exact absurd he (by decide)

/-- Witness for `c3_emendado` at a concrete in-transit row. -/
theorem c3_emendado_witness :
    aplicarAtualizacao (codes "Etapa 1 - Chave Primária")
        ⟨⟨codes "k", codes "p", some 5, none⟩, 0⟩
        ⟨codes "Em Trânsito", codes "k", codes "a", codes "b", codes "c",
          some 1, none, none, codes "Não Atualizado"⟩ =
      ⟨codes "AGUARDANDO DESCARGA", codes "k", codes "a", codes "b",
        codes "c", some 1, some 5, none, codes "Etapa 1 - Chave Primária"⟩ :=
  (c3_emendado (codes "Etapa 1 - Chave Primária")
    ⟨⟨codes "k", codes "p", some 5, none⟩, 0⟩
    ⟨codes "Em Trânsito", codes "k", codes "a", codes "b", codes "c",
      some 1, none, none, codes "Não Atualizado"⟩ (by decide)).trans (by decide)

/-- Claim C4, counterexample: the claim says that for any transport S and
any descarga I with the same primary key, the primary tier records a
match for S and I is marked consumed. Here the transport's key `"k"` is
shared by two descarga rows; last-wins indexing makes row 1 the only
candidate, so after the run the consumed set is `{1}`: row 0 — a descarga
with a key identical to S's — is never consumed. -/
theorem c4_contraexemplo :
    (cruzarEAtualizarTransportes
        [⟨codes "Em Trânsito", codes "k", codes "a", codes "b", codes "c",
          some 1, none, none, []⟩]
        [⟨codes "k", codes "p1", some 5, none⟩,
         ⟨codes "k", codes "p2", some 6, none⟩]).2 = {1}
    ∧ (0 : Nat) ∉ (cruzarEAtualizarTransportes
        [⟨codes "Em Trânsito", codes "k", codes "a", codes "b", codes "c",
          some 1, none, none, []⟩]
        [⟨codes "k", codes "p1", some 5, none⟩,
         ⟨codes "k", codes "p2", some 6, none⟩]).2 := by decide

/-- Claim C4, amended: for any transport S present in the matcher's input
whose primary key hits the last-wins primary index, the primary tier
records the match and the descarga row the index retains for that key —
the LAST one in input order — is marked consumed after the run; an
earlier descarga with the same key is consumed only if it is that
retained record. -/
theorem c4_emendado (ts : List Transporte) (ds : List Descarga)
    (t : Transporte) (m : DescargaIdx) (ht : t ∈ ts)
    (hm : lookupLast (fun x => x.chave_primaria) (comIndice ds)
            t.chave_primaria = some m) :
    m.original_index ∈ (cruzarEAtualizarTransportes ts ds).2 := by
  have hts : ts.isEmpty = false := by
    cases ts with
    | nil => exact absurd ht (List.not_mem_nil t)
    | cons a as => rfl
  have hds : ds.isEmpty = false := by
    cases ds with
    | nil =>
      rw [show comIndice [] = [] from rfl, lookupLast_nil] at hm
      exact absurd hm (by simp)
    | cons d ds => rfl
  unfold cruzarEAtualizarTransportes
  rw [if_neg (by simp [hts, hds])]
  apply etapa2All_usados_mono
  apply etapa1All_consome _ _ _
    ({ t with fonte_atualizacao := codes "Não Atualizado" }) m
  · exact List.mem_map_of_mem _ ht
  · exact hm

/-- Witness for `c4_emendado` at a concrete one-transport, one-descarga
input whose keys agree. -/
theorem c4_emendado_witness :
    (⟨⟨codes "k", codes "p", some 5, none⟩, 0⟩ : DescargaIdx).original_index ∈
      (cruzarEAtualizarTransportes
        [⟨codes "Em Trânsito", codes "k", codes "a", codes "b", codes "c",
          some 1, none, none, []⟩]
        [⟨codes "k", codes "p", some 5, none⟩]).2 :=
  c4_emendado _ _
    ⟨codes "Em Trânsito", codes "k", codes "a", codes "b", codes "c",
      some 1, none, none, []⟩
    ⟨⟨codes "k", codes "p", some 5, none⟩, 0⟩ (by decide) (by decide)

/-- Claim C5: in the secondary (plate-key) tier, a candidate descarga
found for a still-unmatched transport is rejected whenever its issue date
is strictly earlier than the transport's loading date: the row is
returned unchanged and the candidate's index is not added to the consumed
set, so a match is recorded only when the issue date is greater than or
equal to the loading date. -/
theorem c5_etapa2_data_anterior_rejeitada (mapa : Str → Option DescargaIdx)
    (t : Transporte) (u : Finset Nat) (m : DescargaIdx) (di lc : Int)
    (hm : mapa (chaveBuscaPlaca t) = some m)
    (hdata : m.data = some di) (hcarr : t.data_de_carregamento = some lc)
    (hlt : di < lc) :
    etapa2Row mapa t u = (t, u) := by
  unfold etapa2Row
  split
  · rw [hm]
    simp only
    rw [if_neg]
    simp only [dataOk, hdata, hcarr]
    simp
    omega
  · rfl

/-- Witness for `c5_etapa2_data_anterior_rejeitada`: issue date 1 is
earlier than loading date 5, so the row and the consumed set are
untouched. -/
theorem c5_witness :
    etapa2Row (fun _ => some ⟨⟨codes "k", codes "p", some 1, none⟩, 3⟩)
        ⟨codes "Em Trânsito", codes "k", codes "a", codes "b", codes "c",
          some 5, none, none, codes "Não Atualizado"⟩ ∅ =
      (⟨codes "Em Trânsito", codes "k", codes "a", codes "b", codes "c",
          some 5, none, none, codes "Não Atualizado"⟩, ∅) :=
  c5_etapa2_data_anterior_rejeitada _ _ _ _ 1 5 rfl rfl rfl (by decide)

/-- Claim C6: the last-wins index built by
`drop_duplicates(keep='last').set_index(...).to_dict('index')` retains,
for each key, exactly the last record seen in input order: looking the
key up yields that last record (so it is the only match candidate for the
key, and every earlier record with the same key has been dropped). -/
theorem c6_ultima_vence (key : DescargaIdx → Str) (l1 l2 : List DescargaIdx)
    (d : DescargaIdx) (k : Str) (hd : key d = k) (h2 : ∀ e ∈ l2, key e ≠ k) :
    lookupLast key (l1 ++ d :: l2) k = some d := by
  unfold lookupLast
  rw [List.foldl_append, List.foldl_cons, if_pos hd]
  exact lookupLast_sem_chave key l2 k _ h2

/-- Witness for `c6_ultima_vence`: two descargas share key `"k"`; the
lookup returns the second (last) one. -/
theorem c6_witness :
    lookupLast (fun x => x.chave_primaria)
        ([⟨⟨codes "k", codes "p1", some 1, none⟩, 0⟩] ++
          ⟨⟨codes "k", codes "p2", some 2, none⟩, 1⟩ :: []) (codes "k") =
      some ⟨⟨codes "k", codes "p2", some 2, none⟩, 1⟩ :=
  c6_ultima_vence _ _ _ _ _ rfl (by simp)

/-- Claim C7, counterexample: the claim says no status change skips a
state in Scheduled, InTransit, AwaitingUnload, Unloaded. On the code, an
in-transit row matched with a descarga that carries an unload date jumps
directly from `Em Trânsito` (InTransit) to `DESCARREGADO` (Unloaded),
skipping AGUARDANDO DESCARGA. -/
theorem c7_contraexemplo :
    ((cruzarEAtualizarTransportes
        [⟨codes "Em Trânsito", codes "k", codes "a", codes "b", codes "c",
          some 1, none, none, []⟩]
        [⟨codes "k", codes "pk", some 5, some 7⟩]).1.map Transporte.status) =
      [codes "DESCARREGADO"] := by decide

/-- Claim C7, amended: every status change performed by the update block
moves forward in the chain, but may skip AwaitingUnload: a changed status
is either AGUARDANDO DESCARGA (only from a status containing `trânsito`)
or DESCARREGADO (from a status containing `trânsito` — the skipping
transition — or containing `aguardando`); no other status value is ever
written and no backward move occurs. -/
theorem c7_emendado (fonte : Str) (m : DescargaIdx) (t : Transporte)
    (h : (aplicarAtualizacao fonte m t).status ≠ t.status) :
    ((aplicarAtualizacao fonte m t).status = codes "AGUARDANDO DESCARGA" ∧
       temSub (codes "trânsito") (pyLower t.status) = true)
    ∨ ((aplicarAtualizacao fonte m t).status = codes "DESCARREGADO" ∧
       (temSub (codes "trânsito") (pyLower t.status) = true ∨
        temSub (codes "aguardando") (pyLower t.status) = true)) := by
  unfold aplicarAtualizacao at h ⊢
  split at h
  · split_ifs at h ⊢ with h1 h2 h3
    · exact Or.inl ⟨rfl, by simpa using (Bool.and_eq_true _ _ |>.mp h1).1⟩
    · exact Or.inr ⟨rfl, Or.inl (by simpa using (Bool.and_eq_true _ _ |>.mp h2).1)⟩
    · exact Or.inr ⟨rfl, Or.inr (by simpa using (Bool.and_eq_true _ _ |>.mp h3).1)⟩
    · exact absurd rfl h
  · exact absurd rfl h

/-- Witness for `c7_emendado` at the skipping transition: in-transit row,
descarga with unload date present. -/
theorem c7_emendado_witness :
    ((aplicarAtualizacao (codes "Etapa 1 - Chave Primária")
        ⟨⟨codes "k", codes "p", some 5, some 7⟩, 0⟩
        ⟨codes "Em Trânsito", codes "k", codes "a", codes "b", codes "c",
          some 1, none, none, codes "Não Atualizado"⟩).status =
        codes "AGUARDANDO DESCARGA" ∧
       temSub (codes "trânsito")
         (pyLower (codes "Em Trânsito")) = true)
    ∨ ((aplicarAtualizacao (codes "Etapa 1 - Chave Primária")
        ⟨⟨codes "k", codes "p", some 5, some 7⟩, 0⟩
        ⟨codes "Em Trânsito", codes "k", codes "a", codes "b", codes "c",
          some 1, none, none, codes "Não Atualizado"⟩).status =
        codes "DESCARREGADO" ∧
       (temSub (codes "trânsito") (pyLower (codes "Em Trânsito")) = true ∨
        temSub (codes "aguardando") (pyLower (codes "Em Trânsito")) = true)) :=
  c7_emendado _ _ _ (by decide)

/-- Claim C8: the key normalizer is idempotent, insensitive to (ASCII)
letter case and to leading/trailing whitespace, and in particular the
three spec examples `"Hidratado "`, `"HIDRATADO"` and `"hidratado"` all
normalize to the same key. -/
theorem c8_normalizador :
    (∀ l : Str, normalizarTextoParaChave (normalizarTextoParaChave l) =
        normalizarTextoParaChave l)
    ∧ (∀ l : Str, normalizarTextoParaChave (l.map asciiUpperCode) =
        normalizarTextoParaChave l)
    ∧ (∀ l : Str, normalizarTextoParaChave (32 :: l ++ [32]) =
        normalizarTextoParaChave l)
    ∧ normalizarTextoParaChave (codes "Hidratado ") =
        normalizarTextoParaChave (codes "HIDRATADO")
    ∧ normalizarTextoParaChave (codes "HIDRATADO") =
        normalizarTextoParaChave (codes "hidratado") := by
  refine ⟨fun l => ?_, fun l => ?_, fun l => ?_, by decide, by decide⟩
  · rw [norm_eq_nucleo l, norm_eq_nucleo (nucleoNorm l)]
    exact nucleoNorm_fix _ (nucleoNorm_all_key l)
  · rw [norm_eq_nucleo, norm_eq_nucleo, nucleoNorm, nucleoNorm, List.map_map]
    congr 1
    exact List.map_congr_left fun a _ => pyLower_asciiUpper a
  · rw [norm_eq_nucleo, norm_eq_nucleo]
    show nucleoNorm ([32] ++ (l ++ [32])) = nucleoNorm l
    rw [nucleoNorm_append, nucleoNorm_append]
    simp [show nucleoNorm [32] = [] from by decide]

/-- Claim C9: a transport row whose loading date is missing (coerced to
null by `pd.to_datetime(..., errors='coerce')`) is never matched by the
secondary tier: the date guard fails for a null loading date whatever the
candidate, so the row is returned unchanged and nothing is consumed. -/
theorem c9_sem_data_carregamento (mapa : Str → Option DescargaIdx)
    (t : Transporte) (u : Finset Nat) (h : t.data_de_carregamento = none) :
    etapa2Row mapa t u = (t, u) := by
  unfold etapa2Row
  split
  · cases mapa (chaveBuscaPlaca t) with
    | none => rfl
    | some m =>
      simp only
      rw [if_neg]
      simp [dataOk, h]
  · rfl

/-- Witness for `c9_sem_data_carregamento`: the secondary map offers an
exact-key candidate, yet the null loading date blocks the match. -/
theorem c9_witness :
    etapa2Row (fun _ => some ⟨⟨codes "k", codes "p", some 9, none⟩, 2⟩)
        ⟨codes "Em Trânsito", codes "k", codes "a", codes "b", codes "c",
          none, none, none, codes "Não Atualizado"⟩ ∅ =
      (⟨codes "Em Trânsito", codes "k", codes "a", codes "b", codes "c",
          none, none, none, codes "Não Atualizado"⟩, ∅) :=
  c9_sem_data_carregamento _ _ _ rfl

/-- Claim C10: in either tier, when the lookup finds a candidate (and, in
tier 2, the date guard passes) but the computed new status equals the
row's current lowered status, the transport row is returned completely
unchanged — status, arrival date, unload date and update marker keep
their values — yet the candidate's `original_index` is still inserted
into the consumed set. -/
theorem c10_frame_e_consumo :
    (∀ (mapa : Str → Option DescargaIdx) (t : Transporte) (u : Finset Nat)
       (m : DescargaIdx),
       mapa t.chave_primaria = some m → novoStatus m = pyLower t.status →
       etapa1Row mapa t u = (t, insert m.original_index u))
    ∧ (∀ (mapa : Str → Option DescargaIdx) (t : Transporte) (u : Finset Nat)
       (m : DescargaIdx),
       t.fonte_atualizacao = codes "Não Atualizado" →
       mapa (chaveBuscaPlaca t) = some m →
       dataOk m.data t.data_de_carregamento = true →
       novoStatus m = pyLower t.status →
       etapa2Row mapa t u = (t, insert m.original_index u)) := by
  constructor
  · intro mapa t u m hm hs
    unfold etapa1Row
    rw [hm]
    show (aplicarAtualizacao (codes "Etapa 1 - Chave Primária") m t,
      insert m.original_index u) = (t, insert m.original_index u)
    rw [aplicar_mesmo_status _ _ _ hs]
  · intro mapa t u m hf hm hd hs
    unfold etapa2Row
    rw [if_pos hf, hm]
    simp only
    rw [if_pos hd, aplicar_mesmo_status _ _ _ hs]

/-- Witness for `c10_frame_e_consumo` in both tiers: the row is already
`Aguardando Descarga` and the candidate has no unload date, so the new
status equals the current one; the row is unchanged and the index is
consumed. -/
theorem c10_witness :
    etapa1Row (fun _ => some ⟨⟨codes "k", codes "p", some 9, none⟩, 4⟩)
        ⟨codes "Aguardando Descarga", codes "k", codes "a", codes "b",
          codes "c", some 1, none, none, codes "Não Atualizado"⟩ ∅ =
      (⟨codes "Aguardando Descarga", codes "k", codes "a", codes "b",
          codes "c", some 1, none, none, codes "Não Atualizado"⟩, {4})
    ∧ etapa2Row (fun _ => some ⟨⟨codes "k", codes "p", some 2, none⟩, 6⟩)
        ⟨codes "Aguardando Descarga", codes "k", codes "a", codes "b",
          codes "c", some 1, none, none, codes "Não Atualizado"⟩ ∅ =
      (⟨codes "Aguardando Descarga", codes "k", codes "a", codes "b",
          codes "c", some 1, none, none, codes "Não Atualizado"⟩, {6}) :=
  ⟨c10_frame_e_consumo.1 _ _ _ ⟨⟨codes "k", codes "p", some 9, none⟩, 4⟩
     rfl (by decide),
   c10_frame_e_consumo.2 _ _ _ ⟨⟨codes "k", codes "p", some 2, none⟩, 6⟩
     rfl rfl (by decide) (by decide)⟩

end Drives
